import Mathlib

/-!
Verification development for the hypometerAPI repository.

`main.py` is embedded shallowly.  Each external adapter's behaviour for one
request is a value of an outcome type: the success constructor carries the raw
value the code reads off the response, and the remaining constructors are the
exception classes the wrapped library can raise.  `analyze_hype` is then the
sequential composition of the three fetch-and-score blocks, with uncaught
exceptions modelled by `Except.error`.  Python floats are modelled as `Rat`
(the claims only involve exactly representable values), the in-memory `cache`
dict as an association list, and `time.time()` as an explicit `now : Rat`
argument.  `trends_analyzer.py`'s interest DataFrame is modelled as the list
of values of the keyword column.
-/

namespace Hypometer

/-- Outcome of `wikipedia.page(search_term, auto_suggest=False)` (main.py
line 108): the page (the code reads `len(page.links)`), a `PageError`, a
`DisambiguationError` (the snippet renders `e.options`; we carry the rendered
text), or any other exception the library can raise (network error, timeout,
rate limiting).  The `try` block at lines 107-116 catches only `PageError` and
`DisambiguationError`. -/
inductive WikiOutcome where
| success (linkCount : Nat)
| pageError
| disambiguation (options : String)
| otherError (message : String)
deriving DecidableEq

/-- Outcome of `reddit.subreddit("all").search(...)` and the following count
(main.py lines 121-122): a post count, or any exception; line 127 catches bare
`Exception`, so every Reddit failure is caught. -/
inductive RedditOutcome where
| success (postCount : Nat)
| error (message : String)
deriving DecidableEq

/-- Outcome of the NewsAPI request (main.py lines 133-137): the
`totalResults` count, or a `requests.exceptions.RequestException` — the class
raised by `requests.get` and `response.raise_for_status` — caught at
line 142. -/
inductive NewsOutcome where
| success (articleCount : Nat)
| requestException (message : String)
deriving DecidableEq

/-- The external services `analyze_hype` can contact. -/
inductive Adapter where
| wikipedia
| reddit
| news
deriving DecidableEq

/-- The environment one call of `analyze_hype` runs in: what each external
call would yield if issued, and whether the Reddit credentials
(`REDDIT_CLIENT_ID`/`REDDIT_CLIENT_SECRET`, main.py lines 17-18 and 52-59) and
the NewsAPI key (line 20) are present. -/
structure AdapterEnv where
  wiki : WikiOutcome
  redditEnabled : Bool
  reddit : RedditOutcome
  newsKey : Bool
  news : NewsOutcome
deriving DecidableEq

/-- The accumulator of `analyze_hype` (main.py lines 102-104: `score`,
`title`, `snippets`), extended with an instrumentation field recording which
external services were actually called. -/
structure AnalyzeState where
  score : Rat
  title : String
  snippets : List String
  calls : List Adapter
deriving DecidableEq

/-- main.py line 110: `min(view_count / 100, 20)`. -/
def wikiScore (linkCount : Nat) : Rat :=
  min ((linkCount : Rat) / 100) 20

/-- main.py line 123: `min(post_count * 2, 30)`. -/
def redditScore (postCount : Nat) : Rat :=
  min ((postCount : Rat) * 2) 30

/-- main.py line 138: `min(article_count / 10, 50)`. -/
def newsScore (articleCount : Nat) : Rat :=
  min ((articleCount : Rat) / 10) 50

/-- The Wikipedia block of `analyze_hype` (main.py lines 106-116).  A
successful lookup adds `wikiScore`, appends the link-count snippet and sets
the title; `PageError` and `DisambiguationError` are caught and append one
snippet each; any other exception propagates (`Except.error`).  The network
call happens in every branch; we only record it on the paths that return. -/
def wikiStep (w : WikiOutcome) (st : AnalyzeState) : Except String AnalyzeState :=
  match w with
  | .success n =>
      .ok { st with
              score := st.score + wikiScore n
              snippets := st.snippets ++ ["Wikipedia links: " ++ toString n]
              title := "Wikipedia Data"
              calls := st.calls ++ [.wikipedia] }
  | .pageError =>
      .ok { st with
              snippets := st.snippets ++ ["Wikipedia page not found."]
              calls := st.calls ++ [.wikipedia] }
  | .disambiguation opts =>
      .ok { st with
              snippets := st.snippets ++ ["Wikipedia disambiguation: " ++ opts]
              calls := st.calls ++ [.wikipedia] }
  | .otherError msg => .error msg

/-- The Reddit block of `analyze_hype` (main.py lines 118-128).  When
credentials were absent at startup, `reddit` is `None` and the whole block is
skipped — no call, no score, and no snippet.  When enabled, success adds
`redditScore`, one snippet, and sets the title only if `post_count > 0`;
every exception is caught into one snippet. -/
def redditStep (enabled : Bool) (r : RedditOutcome) (st : AnalyzeState) : AnalyzeState :=
  if enabled then
    match r with
    | .success n =>
        let st' := { st with
                      score := st.score + redditScore n
                      snippets := st.snippets ++ ["Reddit posts: " ++ toString n]
                      calls := st.calls ++ [.reddit] }
        if n > 0 then { st' with title := "Reddit Data" } else st'
    | .error msg =>
        { st with
            snippets := st.snippets ++ ["Reddit error: " ++ msg]
            calls := st.calls ++ [.reddit] }
  else st

/-- The NewsAPI block of `analyze_hype` (main.py lines 130-143).  Skipped
entirely (no call, no snippet) when `NEWSAPI_KEY` is absent; success adds
`newsScore`, one snippet, and sets the title only if `article_count > 0`;
a `RequestException` is caught into one snippet. -/
def newsStep (hasKey : Bool) (n : NewsOutcome) (st : AnalyzeState) : AnalyzeState :=
  if hasKey then
    match n with
    | .success c =>
        let st' := { st with
                      score := st.score + newsScore c
                      snippets := st.snippets ++ ["News articles: " ++ toString c]
                      calls := st.calls ++ [.news] }
        if c > 0 then { st' with title := "News Data" } else st'
    | .requestException msg =>
        { st with
            snippets := st.snippets ++ ["NewsAPI error: " ++ msg]
            calls := st.calls ++ [.news] }
  else st

/-- main.py lines 101-145.  Starts from `score = 0.0`, `title = "No Data"`,
`snippets = []` and runs the three blocks in order.  An exception escaping the
Wikipedia block aborts the whole function (`Except.error`); otherwise the
final state — whose `score`, `title`, `snippets` fields are the returned
triple — is produced. -/
def analyze_hype (env : AdapterEnv) : Except String AnalyzeState :=
  match wikiStep env.wiki { score := 0, title := "No Data", snippets := [], calls := [] } with
  | .error e => .error e
  | .ok st1 => .ok (newsStep env.newsKey env.news (redditStep env.redditEnabled env.reddit st1))

/-- Does the Wikipedia outcome fall outside the two exception classes the
code catches? -/
def wikiUncaught : WikiOutcome → Bool
  | .otherError _ => true
  | _ => false

/-- Is the Wikipedia outcome one of the two caught failure kinds? -/
def wikiCaughtFailure : WikiOutcome → Bool
  | .pageError => true
  | .disambiguation _ => true
  | _ => false

/-- Is the Reddit outcome a failure?  (All Reddit failures are caught.) -/
def redditFailure : RedditOutcome → Bool
  | .error _ => true
  | _ => false

/-- Is the NewsAPI outcome a (caught) failure? -/
def newsFailure : NewsOutcome → Bool
  | .requestException _ => true
  | _ => false

/-! ## The request handler and its cache (main.py lines 37-99) -/

/-- main.py line 69: `search_term = hype_query.query.lower()`.  Python's
`str.lower()` lowercases each character; no whitespace is stripped. -/
def cacheKey (query : String) : String :=
  String.mk (query.data.map Char.toLower)

/-- The response payload (main.py lines 45-49 and 87-92). -/
structure HypeResult where
  query : String
  score : Rat
  title : String
  snippets : List String
deriving DecidableEq

/-- One value of the `cache` dict (main.py line 95):
`{'timestamp': current_time, 'data': result_data}`. -/
structure CacheEntry where
  timestamp : Rat
  data : HypeResult
deriving DecidableEq

/-- The `cache` dict, as an association list. -/
abbrev Cache := List (String × CacheEntry)

/-- `search_term in cache` / `cache[search_term]`. -/
def Cache.lookup (c : Cache) (k : String) : Option CacheEntry :=
  match c with
  | [] => none
  | (k', v) :: rest => if k' = k then some v else Cache.lookup rest k

/-- `del cache[search_term]`. -/
def Cache.erase (c : Cache) (k : String) : Cache :=
  match c with
  | [] => []
  | (k', v) :: rest => if k' = k then Cache.erase rest k else (k', v) :: Cache.erase rest k

/-- `cache[search_term] = v`. -/
def Cache.insert (c : Cache) (k : String) (v : CacheEntry) : Cache :=
  Cache.erase c k ++ [(k, v)]

/-- main.py line 39: `CACHE_DURATION_SECONDS = 60 * 15`. -/
def CACHE_DURATION_SECONDS : Rat := 60 * 15

/-- What one call of `get_hype` produces: the response, the cache afterwards,
and whether `analyze_hype` (and hence the adapters) ran. -/
structure GetHypeOut where
  result : HypeResult
  cache : Cache
  aggregated : Bool
deriving DecidableEq

/-- The cache-miss path of `get_hype` (main.py lines 82-99): run
`analyze_hype`, build `result_data` with the query in its original casing,
store it under the lowered key with the current time, and return it.  An
exception from `analyze_hype` propagates. -/
def runFresh (env : AdapterEnv) (c : Cache) (now : Rat) (query key : String) :
    Except String GetHypeOut :=
  match analyze_hype env with
  | .error e => .error e
  | .ok st =>
      let resultData : HypeResult :=
        { query := query, score := st.score, title := st.title, snippets := st.snippets }
      .ok { result := resultData
            cache := Cache.insert c key { timestamp := now, data := resultData }
            aggregated := true }

/-- main.py lines 67-99.  Lower the query, consult the cache: a fresh entry is
returned as stored with no aggregation; an expired entry is deleted and the
miss path runs; a missing entry runs the miss path directly. -/
def get_hype (env : AdapterEnv) (c : Cache) (now : Rat) (query : String) :
    Except String GetHypeOut :=
  match Cache.lookup c (cacheKey query) with
  | some entry =>
      if now - entry.timestamp < CACHE_DURATION_SECONDS then
        .ok { result := entry.data, cache := c, aggregated := false }
      else
        runFresh env (Cache.erase c (cacheKey query)) now query (cacheKey query)
  | none => runFresh env c now query (cacheKey query)

/-! ## trends_analyzer.py -/

/-- The keyword's related-queries dict (trends_analyzer.py lines 85-89):
`'top'` maps to `None` or a DataFrame whose rows carry a `query` column;
`'rising'` to `None` or rows carrying `query` and `value`.  `none` on a field
models both a missing key and a `None` value — the code treats the two
alike. -/
structure RelatedQueries where
  top : Option (List String)
  rising : Option (List (String × Int))
deriving DecidableEq

/-- The dict returned by `get_google_trends_data`: the interest DataFrame,
modelled as the list of values of the keyword column (`[]` for an empty
DataFrame), and the related-queries dict (`none` models the empty, falsy
dict). -/
structure TrendsData where
  interest : List Rat
  related : Option RelatedQueries
deriving DecidableEq

/-- trends_analyzer.py lines 84-89: up to 2 "Top related" snippets and up to
3 "Rising related" snippets, nothing when the dict is empty/falsy. -/
def relatedSnippets (rq : Option RelatedQueries) : List String :=
  match rq with
  | none => []
  | some r =>
      (match r.top with
       | some rows => (rows.take 2).map (fun q => "Top related: " ++ q)
       | none => []) ++
      (match r.rising with
       | some rows =>
           (rows.take 3).map (fun p => "Rising related: " ++ p.1 ++ " (+" ++ toString p.2 ++ "%)")
       | none => [])

/-- trends_analyzer.py lines 73-80: bucket the title by the latest score,
then override with "Interest Fading?" when the latest value is 0 but the
column sum is positive. -/
def trendTitle (score histSum : Rat) : String :=
  let t :=
    if score > 85 then "Peak Interest!"
    else if score > 65 then "High Interest"
    else if score > 40 then "Moderate Interest"
    else if score > 15 then "Low Interest"
    else "Minimal Interest"
  if score = 0 ∧ histSum > 0 then "Interest Fading?" else t

/-- trends_analyzer.py lines 49-95.  `none`, or an empty interest DataFrame,
short-circuits to the no-data triple; otherwise the score is the last value
of the keyword column (`iloc[-1]`), the title comes from `trendTitle`, and
the snippets are the related-query snippets with a fallback when empty. -/
def calculate_hype_from_trends (trendsData : Option TrendsData) : Rat × String × List String :=
  match trendsData with
  | none => (0, "No Data", ["Could not retrieve sufficient trend data."])
  | some td =>
      if td.interest = [] then (0, "No Data", ["Could not retrieve sufficient trend data."])
      else
        let score := td.interest.getLastD 0
        let title := trendTitle score td.interest.sum
        let snips := relatedSnippets td.related
        let snips := if snips = [] then ["No specific related queries found."] else snips
        (score, title, snips)

/-! ## Auxiliary definitions for the claim statements and witnesses -/

/-- Two strings of the same length whose characters agree up to letter case
(pairwise equal after lowercasing). -/
def sameUpToCase (q1 q2 : String) : Bool :=
  q1.data.length == q2.data.length &&
    (q1.data.zip q2.data).all (fun p => p.1.toLower == p.2.toLower)

/-- The C7 scenario environment: Wikipedia returns a page with 4500 links,
Reddit credentials are absent, the news key is present and NewsAPI reports
230 total articles. -/
def envC7 : AdapterEnv :=
  { wiki := .success 4500, redditEnabled := false, reddit := .error "unused",
    newsKey := true, news := .success 230 }

/-- The C3 scenario environment: both the Reddit credentials and the NewsAPI
key are absent, and the Wikipedia page is not found. -/
def envC3 : AdapterEnv :=
  { wiki := .pageError, redditEnabled := false, reddit := .error "unused",
    newsKey := false, news := .success 9 }

/-- The environment used by the C5 witness: Wikipedia page missing, Reddit
and News unconfigured. -/
def envW5 : AdapterEnv :=
  { wiki := .pageError, redditEnabled := false, reddit := .error "unused",
    newsKey := false, news := .success 0 }

/-- The cache entry used by the C5 witness, stored under key "python" at
time 1000. -/
def entryW5 : CacheEntry :=
  { timestamp := 1000,
    data := { query := "Python", score := 43, title := "News Data", snippets := ["s"] } }

/-- The one-entry cache used by the C5 witness. -/
def cacheW5 : Cache := [("python", entryW5)]

/-- The environment used by the C9 witness. -/
def envW9 : AdapterEnv :=
  { wiki := .success 100000, redditEnabled := true, reddit := .success 10,
    newsKey := true, news := .success 230 }

/-- The result state of `analyze_hype` on `envW9`: 20 + 20 + 23 = 63. -/
def stW9 : AnalyzeState :=
  { score := 63, title := "News Data",
    snippets := ["Wikipedia links: 100000", "Reddit posts: 10", "News articles: 230"],
    calls := [.wikipedia, .reddit, .news] }

/-- The environment used by the C3 witness: a mixed configuration — Reddit
configured and succeeding, the NewsAPI key absent. -/
def envC3w : AdapterEnv :=
  { wiki := .success 12, redditEnabled := true, reddit := .success 3,
    newsKey := false, news := .success 9 }

/-- The result state of `analyze_hype` on `envC3w`: score
min(12/100, 20) + min(3*2, 30) = 3/25 + 6, two snippets and two calls —
nothing from the disabled News adapter. -/
def stC3w : AnalyzeState :=
  { score := 3 / 25 + 6, title := "Reddit Data",
    snippets := ["Wikipedia links: 12", "Reddit posts: 3"],
    calls := [.wikipedia, .reddit] }

/-! ## Claim theorems -/

lemma map_toLower_eq_of_sameUpToCase :
    ∀ l1 l2 : List Char,
      (l1.length == l2.length && (l1.zip l2).all (fun p => p.1.toLower == p.2.toLower)) = true →
      l1.map Char.toLower = l2.map Char.toLower := by
  intro l1
  induction l1 with
  | nil => intro l2 h; cases l2 <;> simp_all
  | cons a t ih =>
      intro l2 h
      cases l2 with
      | nil => simp_all
      | cons b t2 =>
          simp only [List.zip_cons_cons, List.all_cons, List.length_cons,
            Bool.and_eq_true, beq_iff_eq, Nat.succ.injEq] at h
          simp only [List.map_cons, List.cons.injEq]
          exact ⟨h.2.1, ih t2 (by simp [h.1, h.2.2])⟩

/-- Claim C2 (amended): `get_hype` lowercases the query (`query.lower()`,
main.py line 69) before using it as the cache key, so two queries that differ
only by letter case derive the same key; but no whitespace is stripped, so
queries differing by leading/trailing whitespace derive different keys (see
the counterexample). -/
theorem C2_case_insensitive_cache_key (q1 q2 : String)
    (h : sameUpToCase q1 q2 = true) : cacheKey q1 = cacheKey q2 := by
  unfold cacheKey
  exact congrArg String.mk (map_toLower_eq_of_sameUpToCase q1.data q2.data h)

/-- Witness for C2: "PyThOn" and "python" differ only by case and get the
same cache key. -/
theorem C2_case_insensitive_cache_key_witness :
    sameUpToCase "PyThOn" "python" = true ∧ cacheKey "PyThOn" = cacheKey "python" :=
  ⟨by decide, C2_case_insensitive_cache_key "PyThOn" "python" (by decide)⟩

/-- Counterexample for C2 as stated: " python" differs from "python" only by
a leading space, yet the derived cache keys differ — `query.lower()` strips
no whitespace, so the two map to distinct cache entries. -/
theorem C2_counterexample :
    " python" = " " ++ "python" ∧ cacheKey " python" ≠ cacheKey "python" := by
  constructor
  · rfl
  · decide

/-- Claim C6 (confirmed): each adapter's score contribution is clamped —
Encyclopedia `min(linkCount/100, 20) ≤ 20`, Discussion
`min(postCount*2, 30) ≤ 30`, News `min(articleCount/10, 50) ≤ 50` — and a
link count of 100000 contributes exactly 20. -/
theorem C6_score_clamps (n : Nat) :
    wikiScore n ≤ 20 ∧ redditScore n ≤ 30 ∧ newsScore n ≤ 50 ∧ wikiScore 100000 = 20 := by
  refine ⟨min_le_right _ _, min_le_right _ _, min_le_right _ _, ?_⟩
  with_unfolding_all rfl

/-- Counterexample for C7 as stated: in the claimed scenario the code indeed
returns score 43 and title "News Data", but the snippets list has length 2
and contains no "disabled" snippet for the skipped Discussion adapter — the
claimed length of 3 is wrong. -/
theorem C7_counterexample :
    analyze_hype envC7 =
      .ok { score := 43, title := "News Data",
            snippets := ["Wikipedia links: 4500", "News articles: 230"],
            calls := [.wikipedia, .news] } ∧
    (["Wikipedia links: 4500", "News articles: 230"] : List String).length ≠ 3 := by
  constructor
  · with_unfolding_all rfl
  · decide

/-- Claim C7 (amended): with Encyclopedia returning 4500 links, Discussion
disabled and News returning 230 articles, `analyze_hype` returns
score = min(45,20) + 0 + min(23,50) = 43, title "News Data", and a snippets
list of length 2 — one snippet per adapter that actually ran, the disabled
Discussion adapter contributing no snippet at all. -/
theorem C7_scenario :
    ∃ st, analyze_hype envC7 = .ok st ∧ st.score = 43 ∧ st.title = "News Data" ∧
      st.snippets.length = 2 ∧ st.calls = [.wikipedia, .news] := by
  refine ⟨{ score := 43, title := "News Data",
            snippets := ["Wikipedia links: 4500", "News articles: 230"],
            calls := [.wikipedia, .news] }, ?_, rfl, rfl, rfl, rfl⟩
  with_unfolding_all rfl

/-- Counterexample for C1 as stated: when `wikipedia.page` raises anything
other than `PageError` or `DisambiguationError` — e.g. a network error — the
`try` block at main.py lines 107-116 does not catch it and `analyze_hype`
propagates the exception instead of returning a (score, title, snippets)
triple. -/
theorem C1_counterexample :
    analyze_hype { wiki := .otherError "requests ConnectionError",
                   redditEnabled := true, reddit := .success 3,
                   newsKey := true, news := .success 7 } =
      .error "requests ConnectionError" := rfl

/-- Claim C1 (amended): whenever the Wikipedia fetch does not raise an
exception outside the two caught classes (`PageError`,
`DisambiguationError`), `analyze_hype` returns a (score, title, snippets)
triple — every Reddit failure and every News request exception is caught
locally.  Exceptions of other kinds in the Wikipedia block propagate. -/
theorem C1_no_uncaught_propagation (env : AdapterEnv)
    (h : wikiUncaught env.wiki = false) : (analyze_hype env).isOk = true := by
  obtain ⟨w, re, r, nk, nw⟩ := env
  cases w with
  | success n => rfl
  | pageError => rfl
  | disambiguation o => rfl
  | otherError m => simp [wikiUncaught] at h

/-- Witness for C1: a concrete run where the Wikipedia page is missing,
Reddit errors out and News errors out, yet `analyze_hype` still returns. -/
theorem C1_no_uncaught_propagation_witness :
    (analyze_hype { wiki := .pageError, redditEnabled := true, reddit := .error "down",
                    newsKey := true, news := .requestException "401" }).isOk = true :=
  C1_no_uncaught_propagation _ rfl

/-- Counterexample for C3 as stated: with both Reddit and News unconfigured
the code issues no call for them and adds no score — but it also appends NO
"disabled" snippet for either: the snippets list holds only the Wikipedia
entry.  The `if reddit:` / `if NEWSAPI_KEY:` guards skip the blocks silently
(the "disabled" notices at main.py lines 60 and 64 are start-up prints, not
snippets). -/
theorem C3_counterexample :
    analyze_hype envC3 =
      .ok { score := 0, title := "No Data",
            snippets := ["Wikipedia page not found."],
            calls := [.wikipedia] } := rfl

lemma wikiStep_calls_snippets (w : WikiOutcome) (st st' : AnalyzeState)
    (h : wikiStep w st = .ok st') :
    st'.calls = st.calls ++ [.wikipedia] ∧
    st'.snippets.length = st.snippets.length + 1 := by
  cases w with
  | success n => cases h; exact ⟨rfl, by simp⟩
  | pageError => cases h; exact ⟨rfl, by simp⟩
  | disambiguation o => cases h; exact ⟨rfl, by simp⟩
  | otherError m => simp [wikiStep] at h

lemma redditStep_calls_snippets (e : Bool) (r : RedditOutcome) (st : AnalyzeState) :
    (redditStep e r st).calls = st.calls ++ (if e then [Adapter.reddit] else []) ∧
    (redditStep e r st).snippets.length = st.snippets.length + (if e then 1 else 0) := by
  cases e with
  | false => simp [redditStep]
  | true =>
      cases r with
      | success n => by_cases hn : 0 < n <;> simp [redditStep, hn]
      | error m => simp [redditStep]

lemma newsStep_calls_snippets (k : Bool) (n : NewsOutcome) (st : AnalyzeState) :
    (newsStep k n st).calls = st.calls ++ (if k then [Adapter.news] else []) ∧
    (newsStep k n st).snippets.length = st.snippets.length + (if k then 1 else 0) := by
  cases k with
  | false => simp [newsStep]
  | true =>
      cases n with
      | success c => by_cases hc : 0 < c <;> simp [newsStep, hc]
      | requestException m => simp [newsStep]

/-- Claim C3 (amended): every non-raising run appends exactly one snippet
per adapter it actually called, and an adapter whose credentials are absent
is never called — so each disabled adapter (Reddit when the client
id/secret are missing, News when the key is missing, independently of the
other's configuration) gets no network call, contributes nothing, and has
no snippet at all appended for it: the `if reddit:` / `if NEWSAPI_KEY:`
guards skip the block silently, and the "disabled" notices at main.py
lines 60 and 64 are start-up prints, not snippets. -/
theorem C3_unconfigured_adapter_skipped (env : AdapterEnv)
    (st : AnalyzeState) (h : analyze_hype env = .ok st) :
    st.snippets.length = st.calls.length ∧
    (env.redditEnabled = false → Adapter.reddit ∉ st.calls) ∧
    (env.newsKey = false → Adapter.news ∉ st.calls) := by
  rcases hww : wikiStep env.wiki { score := 0, title := "No Data", snippets := [], calls := [] }
    with e | st1
  · unfold analyze_hype at h
    rw [hww] at h
    exact absurd h (by simp)
  · unfold analyze_hype at h
    rw [hww] at h
    simp only [] at h
    cases h
    obtain ⟨hc1, hs1⟩ := wikiStep_calls_snippets _ _ _ hww
    obtain ⟨hc2, hs2⟩ := redditStep_calls_snippets env.redditEnabled env.reddit st1
    obtain ⟨hc3, hs3⟩ := newsStep_calls_snippets env.newsKey env.news
      (redditStep env.redditEnabled env.reddit st1)
    refine ⟨?_, ?_, ?_⟩
    · rw [hs3, hs2, hc3, hc2, hs1, hc1]
      cases env.redditEnabled <;> cases env.newsKey <;> simp
    · intro hre
      rw [hc3, hc2, hc1, hre]
      cases env.newsKey <;> simp
    · intro hnk
      rw [hc3, hc2, hc1, hnk]
      cases env.redditEnabled <;> simp

/-- Witness for C3: a mixed configuration — News key absent while Reddit is
configured and called — where the News adapter is not called and the
snippets are exactly one per called adapter. -/
theorem C3_unconfigured_adapter_skipped_witness :
    stC3w.snippets.length = stC3w.calls.length ∧ Adapter.news ∉ stC3w.calls :=
  ⟨(C3_unconfigured_adapter_skipped envC3w stC3w (by with_unfolding_all rfl)).1,
   (C3_unconfigured_adapter_skipped envC3w stC3w (by with_unfolding_all rfl)).2.2 rfl⟩

/-- Counterexample for C4 as stated: a run where every attempted adapter
fails — Wikipedia with an uncaught exception kind, Reddit and News with
caught ones — makes `analyze_hype` raise rather than return the zero-score
triple: "it never raises" is false. -/
theorem C4_counterexample :
    analyze_hype { wiki := .otherError "ReadTimeout", redditEnabled := true,
                   reddit := .error "down", newsKey := true,
                   news := .requestException "401" } =
      .error "ReadTimeout" := rfl

/-- Claim C4 (amended): if every attempted adapter fails with a failure the
code catches (Wikipedia: page-not-found or disambiguation; Reddit: any
exception; News: a request exception), `analyze_hype` returns score 0.0,
title "No Data", and one snippet per attempted adapter — a non-empty list,
since Wikipedia is always attempted.  (An uncaught Wikipedia exception
instead propagates; see the counterexample.) -/
theorem C4_all_failed_zero_result (env : AdapterEnv)
    (hw : wikiCaughtFailure env.wiki = true)
    (hr : env.redditEnabled = true → redditFailure env.reddit = true)
    (hn : env.newsKey = true → newsFailure env.news = true)
    (st : AnalyzeState) (h : analyze_hype env = .ok st) :
    st.score = 0 ∧ st.title = "No Data" ∧
    st.snippets.length = st.calls.length ∧ st.snippets ≠ [] := by
  obtain ⟨w, re, r, nk, nw⟩ := env
  cases w with
  | success n => simp [wikiCaughtFailure] at hw
  | otherError m => simp [wikiCaughtFailure] at hw
  | pageError =>
      cases re with
      | false =>
          cases nk with
          | false => cases h; exact ⟨rfl, rfl, rfl, by simp [newsStep, redditStep]⟩
          | true =>
              cases nw with
              | success c => simp [newsFailure] at hn
              | requestException m => cases h; exact ⟨rfl, rfl, rfl, by simp [newsStep, redditStep]⟩
      | true =>
          cases r with
          | success p => simp [redditFailure] at hr
          | error m =>
              cases nk with
              | false => cases h; exact ⟨rfl, rfl, rfl, by simp [newsStep, redditStep]⟩
              | true =>
                  cases nw with
                  | success c => simp [newsFailure] at hn
                  | requestException m2 => cases h; exact ⟨rfl, rfl, rfl, by simp [newsStep, redditStep]⟩
  | disambiguation o =>
      cases re with
      | false =>
          cases nk with
          | false => cases h; exact ⟨rfl, rfl, rfl, by simp [newsStep, redditStep]⟩
          | true =>
              cases nw with
              | success c => simp [newsFailure] at hn
              | requestException m => cases h; exact ⟨rfl, rfl, rfl, by simp [newsStep, redditStep]⟩
      | true =>
          cases r with
          | success p => simp [redditFailure] at hr
          | error m =>
              cases nk with
              | false => cases h; exact ⟨rfl, rfl, rfl, by simp [newsStep, redditStep]⟩
              | true =>
                  cases nw with
                  | success c => simp [newsFailure] at hn
                  | requestException m2 => cases h; exact ⟨rfl, rfl, rfl, by simp [newsStep, redditStep]⟩

/-- Witness for C4: all three adapters attempted and all failing with caught
failures gives the zero-score "No Data" result with three snippets. -/
theorem C4_all_failed_zero_result_witness :
    ({ score := 0, title := "No Data",
       snippets := ["Wikipedia page not found.", "Reddit error: down", "NewsAPI error: 401"],
       calls := [.wikipedia, .reddit, .news] } : AnalyzeState).score = 0 ∧
    ({ score := 0, title := "No Data",
       snippets := ["Wikipedia page not found.", "Reddit error: down", "NewsAPI error: 401"],
       calls := [.wikipedia, .reddit, .news] } : AnalyzeState).title = "No Data" ∧
    ({ score := 0, title := "No Data",
       snippets := ["Wikipedia page not found.", "Reddit error: down", "NewsAPI error: 401"],
       calls := [.wikipedia, .reddit, .news] } : AnalyzeState).snippets.length =
      ({ score := 0, title := "No Data",
         snippets := ["Wikipedia page not found.", "Reddit error: down", "NewsAPI error: 401"],
         calls := [.wikipedia, .reddit, .news] } : AnalyzeState).calls.length ∧
    ({ score := 0, title := "No Data",
       snippets := ["Wikipedia page not found.", "Reddit error: down", "NewsAPI error: 401"],
       calls := [.wikipedia, .reddit, .news] } : AnalyzeState).snippets ≠ [] :=
  C4_all_failed_zero_result
    { wiki := .pageError, redditEnabled := true, reddit := .error "down",
      newsKey := true, news := .requestException "401" }
    rfl (fun _ => rfl) (fun _ => rfl) _ rfl

/-- Claim C5 (confirmed): with a cache entry present under the lowered key,
a lookup strictly inside the 15-minute window returns exactly the stored
data, leaves the cache unchanged and runs no aggregation (hence no adapter
calls); once the window has elapsed the entry is deleted, a fresh
aggregation runs, and its result is stored under the same key with the new
timestamp. -/
theorem C5_cache_freshness_policy (env : AdapterEnv) (c : Cache) (now : Rat)
    (query : String) (entry : CacheEntry)
    (hl : Cache.lookup c (cacheKey query) = some entry) :
    (now - entry.timestamp < CACHE_DURATION_SECONDS →
        get_hype env c now query =
          .ok { result := entry.data, cache := c, aggregated := false }) ∧
    (¬ now - entry.timestamp < CACHE_DURATION_SECONDS →
        ∀ st, analyze_hype env = .ok st →
          get_hype env c now query =
            .ok { result := { query := query, score := st.score, title := st.title,
                              snippets := st.snippets }
                  cache := Cache.insert (Cache.erase c (cacheKey query)) (cacheKey query)
                             { timestamp := now
                               data := { query := query, score := st.score, title := st.title,
                                         snippets := st.snippets } }
                  aggregated := true }) := by
  have hge : get_hype env c now query =
      if now - entry.timestamp < CACHE_DURATION_SECONDS then
        .ok { result := entry.data, cache := c, aggregated := false }
      else
        runFresh env (Cache.erase c (cacheKey query)) now query (cacheKey query) := by
    unfold get_hype
    rw [hl]
  constructor
  · intro hf
    rw [hge, if_pos hf]
  · intro hf st hst
    rw [hge, if_neg hf]
    unfold runFresh
    rw [hst]

/-- Witness for C5: at time 1500 (inside the window) the stored data comes
back unchanged with no aggregation; at time 2000 (window elapsed) the entry
is replaced by a freshly aggregated result. -/
theorem C5_cache_freshness_policy_witness :
    get_hype envW5 cacheW5 1500 "PyThOn" =
      .ok { result := entryW5.data, cache := cacheW5, aggregated := false } ∧
    get_hype envW5 cacheW5 2000 "PyThOn" =
      .ok { result := { query := "PyThOn", score := 0, title := "No Data",
                        snippets := ["Wikipedia page not found."] }
            cache := Cache.insert (Cache.erase cacheW5 (cacheKey "PyThOn")) (cacheKey "PyThOn")
                       { timestamp := 2000
                         data := { query := "PyThOn", score := 0, title := "No Data",
                                   snippets := ["Wikipedia page not found."] } }
            aggregated := true } := by
  constructor
  · exact (C5_cache_freshness_policy envW5 cacheW5 1500 "PyThOn" entryW5
      (by with_unfolding_all rfl)).1
      (by norm_num [entryW5, CACHE_DURATION_SECONDS])
  · exact (C5_cache_freshness_policy envW5 cacheW5 2000 "PyThOn" entryW5
      (by with_unfolding_all rfl)).2
      (by norm_num [entryW5, CACHE_DURATION_SECONDS]) _ rfl

lemma wikiScore_nonneg (n : Nat) : 0 ≤ wikiScore n :=
  le_min (by positivity) (by norm_num)

lemma redditScore_nonneg (n : Nat) : 0 ≤ redditScore n :=
  le_min (by positivity) (by norm_num)

lemma newsScore_nonneg (n : Nat) : 0 ≤ newsScore n :=
  le_min (by positivity) (by norm_num)

lemma wikiScore_le_clamp (n : Nat) : wikiScore n ≤ 20 := min_le_right _ _

lemma redditScore_le_clamp (n : Nat) : redditScore n ≤ 30 := min_le_right _ _

lemma newsScore_le_clamp (n : Nat) : newsScore n ≤ 50 := min_le_right _ _

lemma wikiStep_score_bounds (w : WikiOutcome) (st st' : AnalyzeState)
    (h : wikiStep w st = .ok st') :
    st.score ≤ st'.score ∧ st'.score ≤ st.score + 20 := by
  cases w with
  | success n =>
      cases h
      exact ⟨by simp <;> linarith [wikiScore_nonneg n],
             by simp <;> linarith [wikiScore_le_clamp n]⟩
  | pageError => cases h; exact ⟨le_refl _, by simp <;> linarith⟩
  | disambiguation o => cases h; exact ⟨le_refl _, by simp <;> linarith⟩
  | otherError m => simp [wikiStep] at h

lemma redditStep_score_bounds (e : Bool) (r : RedditOutcome) (st : AnalyzeState) :
    st.score ≤ (redditStep e r st).score ∧ (redditStep e r st).score ≤ st.score + 30 := by
  cases e with
  | false => exact ⟨le_refl _, by simp [redditStep] <;> linarith⟩
  | true =>
      cases r with
      | success n =>
          have hsc : (redditStep true (.success n) st).score = st.score + redditScore n := by
            by_cases hn : 0 < n
            · simp [redditStep, hn]
            · simp [redditStep, hn]
          rw [hsc]
          exact ⟨by linarith [redditScore_nonneg n], by linarith [redditScore_le_clamp n]⟩
      | error m =>
          exact ⟨by simp [redditStep], by simp [redditStep] <;> linarith⟩

lemma newsStep_score_bounds (k : Bool) (n : NewsOutcome) (st : AnalyzeState) :
    st.score ≤ (newsStep k n st).score ∧ (newsStep k n st).score ≤ st.score + 50 := by
  cases k with
  | false => exact ⟨le_refl _, by simp [newsStep] <;> linarith⟩
  | true =>
      cases n with
      | success c =>
          have hsc : (newsStep true (.success c) st).score = st.score + newsScore c := by
            by_cases hc : 0 < c
            · simp [newsStep, hc]
            · simp [newsStep, hc]
          rw [hsc]
          exact ⟨by linarith [newsScore_nonneg c], by linarith [newsScore_le_clamp c]⟩
      | requestException m =>
          exact ⟨by simp [newsStep], by simp [newsStep] <;> linarith⟩

/-- Claim C9 (confirmed): on every non-raising run, the total score lies in
[0, 100] — it starts at 0 and gains at most one non-negative contribution
per adapter, clamped to 20, 30 and 50 respectively.  (Raw inputs are
non-negative by construction: they are counts.) -/
theorem C9_total_score_bounds (env : AdapterEnv) (st : AnalyzeState)
    (h : analyze_hype env = .ok st) : 0 ≤ st.score ∧ st.score ≤ 100 := by
  rcases hww : wikiStep env.wiki { score := 0, title := "No Data", snippets := [], calls := [] }
    with e | st1
  · unfold analyze_hype at h
    rw [hww] at h
    exact absurd h (by simp)
  · unfold analyze_hype at h
    rw [hww] at h
    simp only [] at h
    cases h
    have b1 : (0 : Rat) ≤ st1.score ∧ st1.score ≤ 0 + 20 :=
      wikiStep_score_bounds _ _ _ hww
    have b2 := redditStep_score_bounds env.redditEnabled env.reddit st1
    have b3 := newsStep_score_bounds env.newsKey env.news
      (redditStep env.redditEnabled env.reddit st1)
    constructor <;> linarith [b1.1, b1.2, b2.1, b2.2, b3.1, b3.2]

/-- Witness for C9: a concrete run whose total score 63 lies in [0, 100]. -/
theorem C9_total_score_bounds_witness : 0 ≤ stW9.score ∧ stW9.score ≤ 100 :=
  C9_total_score_bounds envW9 stW9 (by with_unfolding_all rfl)

/-- Claim C8 (confirmed): with trend data present and a non-empty interest
series, the title is bucketed on the latest interest value — >85 "Peak
Interest!", >65 "High Interest", >40 "Moderate Interest", >15 "Low
Interest", otherwise "Minimal Interest" — and whenever the latest value is 0
while the series sum is positive, "Interest Fading?" overrides the
bucket. -/
theorem C8_trend_title_buckets (td : TrendsData) (h : td.interest ≠ []) :
    (85 < td.interest.getLastD 0 →
        (calculate_hype_from_trends (some td)).2.1 = "Peak Interest!") ∧
    (65 < td.interest.getLastD 0 ∧ td.interest.getLastD 0 ≤ 85 →
        (calculate_hype_from_trends (some td)).2.1 = "High Interest") ∧
    (40 < td.interest.getLastD 0 ∧ td.interest.getLastD 0 ≤ 65 →
        (calculate_hype_from_trends (some td)).2.1 = "Moderate Interest") ∧
    (15 < td.interest.getLastD 0 ∧ td.interest.getLastD 0 ≤ 40 →
        (calculate_hype_from_trends (some td)).2.1 = "Low Interest") ∧
    (td.interest.getLastD 0 ≤ 15 ∧
        ¬(td.interest.getLastD 0 = 0 ∧ 0 < td.interest.sum) →
        (calculate_hype_from_trends (some td)).2.1 = "Minimal Interest") ∧
    (td.interest.getLastD 0 = 0 ∧ 0 < td.interest.sum →
        (calculate_hype_from_trends (some td)).2.1 = "Interest Fading?") := by
  have key : (calculate_hype_from_trends (some td)).2.1 =
      trendTitle (td.interest.getLastD 0) td.interest.sum := by
    simp only [calculate_hype_from_trends]
    rw [if_neg h]
  refine ⟨?_, ?_, ?_, ?_, ?_, ?_⟩
  · intro hc
    rw [key]; unfold trendTitle
    split_ifs with h1 h2 h3 h4 h5 <;>
      first
        | rfl
        | (exfalso; obtain ⟨h0, hs⟩ := h1; linarith)
        | (exfalso; linarith)
  · rintro ⟨hc1, hc2⟩
    rw [key]; unfold trendTitle
    split_ifs with h1 h2 h3 h4 h5 <;>
      first
        | rfl
        | (exfalso; obtain ⟨h0, hs⟩ := h1; linarith)
        | (exfalso; linarith)
  · rintro ⟨hc1, hc2⟩
    rw [key]; unfold trendTitle
    split_ifs with h1 h2 h3 h4 h5 <;>
      first
        | rfl
        | (exfalso; obtain ⟨h0, hs⟩ := h1; linarith)
        | (exfalso; linarith)
  · rintro ⟨hc1, hc2⟩
    rw [key]; unfold trendTitle
    split_ifs with h1 h2 h3 h4 h5 <;>
      first
        | rfl
        | (exfalso; obtain ⟨h0, hs⟩ := h1; linarith)
        | (exfalso; linarith)
  · rintro ⟨hc1, hc2⟩
    rw [key]; unfold trendTitle
    split_ifs with h1 h2 h3 h4 h5 <;>
      first
        | rfl
        | (exfalso; exact hc2 h1)
        | (exfalso; linarith)
  · intro hc
    rw [key]; unfold trendTitle
    split_ifs with h1 h2 h3 h4 h5 <;>
      first
        | rfl
        | (exfalso; exact h1 hc)

/-- Witness for C8: the spec scenario — latest interest value 0 with
historical sum 340 — yields the title "Interest Fading?". -/
theorem C8_trend_title_buckets_witness :
    (calculate_hype_from_trends (some { interest := [340, 0], related := none })).2.1 =
      "Interest Fading?" :=
  (C8_trend_title_buckets { interest := [340, 0], related := none } (by simp)).2.2.2.2.2
    ⟨rfl, by norm_num [List.sum_cons, List.sum_nil]⟩

/-- Claim C10 (confirmed): `calculate_hype_from_trends` always returns a
non-empty snippets list; missing or empty trend data yields exactly
["Could not retrieve sufficient trend data."], and a non-empty series with
no related-query snippets falls back to exactly
["No specific related queries found."]. -/
theorem C10_snippets_nonempty (input : Option TrendsData) :
    (calculate_hype_from_trends input).2.2 ≠ [] ∧
    (input = none →
        (calculate_hype_from_trends input).2.2 =
          ["Could not retrieve sufficient trend data."]) ∧
    (∀ td, input = some td → td.interest = [] →
        (calculate_hype_from_trends input).2.2 =
          ["Could not retrieve sufficient trend data."]) ∧
    (∀ td, input = some td → td.interest ≠ [] → relatedSnippets td.related = [] →
        (calculate_hype_from_trends input).2.2 =
          ["No specific related queries found."]) := by
  cases input with
  | none =>
      refine ⟨by simp [calculate_hype_from_trends], fun _ => rfl, ?_, ?_⟩
      · intro td hx _
        exact Option.noConfusion hx
      · intro td hx _ _
        exact Option.noConfusion hx
  | some td =>
      refine ⟨?_, ?_, ?_, ?_⟩
      · by_cases he : td.interest = []
        · simp [calculate_hype_from_trends, he]
        · by_cases hr : relatedSnippets td.related = []
          · simp [calculate_hype_from_trends, he, hr]
          · simp [calculate_hype_from_trends, he, hr]
      · intro hx
        exact Option.noConfusion hx
      · intro td2 hx he
        injection hx with hx
        subst hx
        simp [calculate_hype_from_trends, he]
      · intro td2 hx he hr
        injection hx with hx
        subst hx
        simp [calculate_hype_from_trends, he, hr]

/-- Witness for C10: the two fallback snippets on concrete inputs. -/
theorem C10_snippets_nonempty_witness :
    (calculate_hype_from_trends none).2.2 = ["Could not retrieve sufficient trend data."] ∧
    (calculate_hype_from_trends (some { interest := [7], related := none })).2.2 =
      ["No specific related queries found."] :=
  ⟨(C10_snippets_nonempty none).2.1 rfl,
   (C10_snippets_nonempty (some { interest := [7], related := none })).2.2.2
     { interest := [7], related := none } rfl (by simp) rfl⟩

end Hypometer
